import Mathlib

/-!
Verification of the joker-interfaces HTTP client library.

The Python source is shallowly embedded: JSON values become the inductive
type `JsonVal`; the `requests` transport becomes an explicit function
argument mapping a request record to a response; logging becomes an
explicit list of emitted log records; Python exceptions become the
`Except PyExc` monad.
-/

/-- A decoded JSON value, the result of Python's `json.loads`.
Objects are association lists (Python dicts keep unique keys; lookup
takes the first match). -/
inductive JsonVal where
  | obj : List (String × JsonVal) → JsonVal
  | arr : List JsonVal → JsonVal
  | str : String → JsonVal
  | num : Int → JsonVal
  | bool : Bool → JsonVal
  | null : JsonVal
deriving Repr

/-- Python truthiness of a decoded JSON value: empty dict/list/string,
zero, `False` and `None` are falsy; everything else is truthy. -/
def JsonVal.truthy : JsonVal → Bool
  | .obj kvs => !kvs.isEmpty
  | .arr xs => !xs.isEmpty
  | .str s => !s.isEmpty
  | .num n => n != 0
  | .bool b => b
  | .null => false

/-- Python truthiness of an optional value: `None` (absent) is falsy. -/
def pyTruthy : Option JsonVal → Bool
  | none => false
  | some v => v.truthy

/-- The Python type name of a decoded JSON value, as printed by
`type(data)` in a log message. -/
def JsonVal.pyTypeName : JsonVal → String
  | .obj _ => "dict"
  | .arr _ => "list"
  | .str _ => "str"
  | .num _ => "int"
  | .bool _ => "bool"
  | .null => "NoneType"

/-- `dict.get(key)`: first value bound to `key`, or `None`. -/
def dictGet (kvs : List (String × JsonVal)) (key : String) : Option JsonVal :=
  (kvs.find? (fun p => p.1 == key)).map Prod.snd

/-- The Python exceptions the embedded code can raise. -/
inductive PyExc where
  | attributeError (typeName attr : String)
  | assertionError
deriving Repr, DecidableEq

/-- Python attribute access `v.get(key)`: only dicts have a `get`
method; on any other decoded JSON value it raises `AttributeError`. -/
def JsonVal.getAttrGet : JsonVal → String → Except PyExc (Option JsonVal)
  | .obj kvs, key => .ok (dictGet kvs key)
  | v, _ => .error (.attributeError v.pyTypeName "get")

/-! ## Logging model

Python's module-level `_logger` is modelled by the numeric level
constants of the `logging` module and an effective level; a call emits a
log record into an explicit list. `ERROR`-level calls in the source
(`_logger.error`) emit unconditionally (filtering by the logging
framework is external to this code); the source's own explicit
`isEnabledFor` gates are modelled where they appear. -/

/-- `logging.DEBUG` -/
def logDEBUG : Nat := 10

/-- `logging.INFO` -/
def logINFO : Nat := 20

/-- `logging.ERROR` -/
def logERROR : Nat := 40

/-- The distinct log messages emitted by the embedded code. -/
inductive LogMsg where
  | statusCode (code : Nat) (url : String)
  | badJson (url : String)
  | wrongType (typeName url : String)
  | nonZeroCode (code : Option JsonVal) (url : String)
  | curl (cmd : String)
  | respContent (preview : String)
  | info (text : String)
deriving Repr

/-- Whether a log message is a curl-equivalent reproduction. -/
def LogMsg.isCurl : LogMsg → Bool
  | .curl _ => true
  | _ => false

/-- One emitted log record: its level and its message. -/
structure LogEntry where
  level : Nat
  msg : LogMsg
deriving Repr

/-- `_logger.isEnabledFor(level)` for an effective logger level. -/
def isEnabledFor (effLevel level : Nat) : Bool := effLevel ≤ level

/-! ## HTTP transport model

A `requests.Response` carries the status code, the final URL, the
decoded body text and the result of `json.loads` on that text (`none`
models a `json.JSONDecodeError`). -/

/-- A `requests.Response` as observed by this code. -/
structure Response where
  status_code : Nat
  url : String
  text : String
  bodyJson : Option JsonVal

/-- The keyword arguments of `json_request` that the code touches:
an optional caller-supplied timeout. -/
structure Kwargs where
  timeout : Option Nat
deriving Repr, DecidableEq

/-- The request handed to `requests.request`: method, URL, the
JSON-serialized body (if any, with its content-type header), and the
effective timeout. -/
structure RequestRecord where
  method : String
  url : String
  body : Option JsonVal
  json_headers : Bool
  timeout : Nat
deriving Repr

/-! ## HTTPClient (src/joker/interfaces/http.py)

`_BaseHTTPClient` lives in `joker/interfaces/utils.py`, which is not in
the sources; per the spec it stores the base URL at construction and
exposes it read-only. `urllib.parse.urljoin` is an external stdlib
function and is passed as an explicit `join` argument. -/

/-- Modelled from the spec: `_BaseHTTPClient` (in the missing
`joker/interfaces/utils.py`) stores a single base URL string at
construction and exposes it read-only to subclasses. `HTTPClient`
derives from it adding no state. -/
structure HTTPClient where
  base_url : String
deriving Repr, DecidableEq

/-- The class attribute `HTTPClient.timeout = 30`. -/
def HTTPClient.timeout : Nat := 30

/-- `HTTPClient.get_url`: `urllib.parse.urljoin(self.base_url, path)`,
with the stdlib join passed explicitly as `join`. -/
def HTTPClient.get_url (join : String → String → String)
    (c : HTTPClient) (path : String) : String :=
  join c.base_url path

/-- `HTTPClient._load_json`: validates a response and decodes its JSON
envelope. Returns the emitted log records alongside the Python result;
a raised exception is `Except.error`. Mirrors the source line by line:
non-200 logs and returns `None`; undecodable JSON logs and returns
`None`; a non-dict value logs a type mismatch and falls through to
`data.get('code')` (which raises `AttributeError` on a non-dict); a
truthy code logs and returns `None`; otherwise the dict is returned. -/
def HTTPClient.load_json (resp : Response) :
    Except PyExc (Option JsonVal) × List LogEntry :=
  if resp.status_code ≠ 200 then
    (.ok none, [⟨logERROR, .statusCode resp.status_code resp.url⟩])
  else
    match resp.bodyJson with
    | none => (.ok none, [⟨logERROR, .badJson resp.url⟩])
    | some data =>
      let typeLogs : List LogEntry :=
        match data with
        | .obj _ => []
        | _ => [⟨logERROR, .wrongType data.pyTypeName resp.url⟩]
      match data.getAttrGet "code" with
      | .error e => (.error e, typeLogs)
      | .ok code =>
        if pyTruthy code then
          (.ok none, typeLogs ++ [⟨logERROR, .nonZeroCode code resp.url⟩])
        else
          (.ok (some data), typeLogs)

/-- Modelled from the spec: `dump_json_request_to_curl` (in the missing
`joker/interfaces/utils.py`) renders a human-readable command-line
reproduction of the request, for debugging only. -/
def dump_json_request_to_curl (method url : String)
    (data : Option JsonVal) : String :=
  "curl -X " ++ method ++ " " ++ url
    ++ (match data with
        | none => ""
        | some _ => " -H \"Content-type: application/json\" -d <json-body>")

/-- `HTTPClient.log_request_as_curl`: emits the curl-equivalent at
`level` only when the logger is enabled for `level`. -/
def HTTPClient.log_request_as_curl (effLevel : Nat)
    (method url : String) (data : Option JsonVal) (level : Nat) :
    List LogEntry :=
  if isEnabledFor effLevel level then
    [⟨level, .curl (dump_json_request_to_curl method url data)⟩]
  else
    []

/-- `HTTPClient.log_resp_content`: emits the first 255 characters of the
response text at `level` when the logger is enabled for `level`. (The
fallback on `resp.content` applies only when text decoding raises;
`Response.text` models an already-decoded body.) -/
def HTTPClient.log_resp_content (effLevel : Nat) (resp : Response)
    (level : Nat) : List LogEntry :=
  if isEnabledFor effLevel level then
    [⟨level, .respContent (resp.text.take 255)⟩]
  else
    []

/-- The request `HTTPClient.json_request` issues: URL from `get_url`,
upper-cased method, `kwargs.setdefault('timeout', self.timeout)`, and —
when `data` is given — the serialized body with a JSON content-type
header. -/
def HTTPClient.build_request (join : String → String → String)
    (c : HTTPClient) (method path : String) (data : Option JsonVal)
    (kwargs : Kwargs) : RequestRecord :=
  { method := method.toUpper
    url := c.get_url join path
    body := data
    json_headers := data.isSome
    timeout := kwargs.timeout.getD HTTPClient.timeout }

/-- `HTTPClient.json_request`: issues the request through `transport`
(`requests.request`), decodes via `load_json`, and on an empty result
logs the response content and the curl-equivalent (at the default
`logging.DEBUG` level); on success logs the curl-equivalent at
`logging.DEBUG`. An exception raised inside `load_json` propagates. -/
def HTTPClient.json_request (join : String → String → String)
    (transport : RequestRecord → Response) (effLevel : Nat)
    (c : HTTPClient) (method path : String) (data : Option JsonVal)
    (kwargs : Kwargs) : Except PyExc (Option JsonVal) × List LogEntry :=
  let req := c.build_request join method path data kwargs
  let resp := transport req
  match HTTPClient.load_json resp with
  | (.error e, logs) => (.error e, logs)
  | (.ok none, logs) =>
    (.ok none,
      logs ++ HTTPClient.log_resp_content effLevel resp logERROR
           ++ HTTPClient.log_request_as_curl effLevel req.method req.url data logDEBUG)
  | (.ok (some d), logs) =>
    (.ok (some d),
      logs ++ HTTPClient.log_request_as_curl effLevel req.method req.url data logDEBUG)

/-- `HTTPClient.json_get`: `assert 'data' not in kwargs` — a supplied
body raises `AssertionError` before any request is issued — then
delegates to `json_request` with method `GET` and no body. -/
def HTTPClient.json_get (join : String → String → String)
    (transport : RequestRecord → Response) (effLevel : Nat)
    (c : HTTPClient) (path : String) (dataArg : Option JsonVal)
    (kwargs : Kwargs) : Except PyExc (Option JsonVal) × List LogEntry :=
  match dataArg with
  | some _ => (.error .assertionError, [])
  | none => c.json_request join transport effLevel "GET" path none kwargs

/-- `HTTPClient.json_post`: `assert 'data' not in kwargs` (the body is
the positional `data` parameter), then delegates to `json_request` with
method `POST`. -/
def HTTPClient.json_post (join : String → String → String)
    (transport : RequestRecord → Response) (effLevel : Nat)
    (c : HTTPClient) (path : String) (data : Option JsonVal)
    (kwargs : Kwargs) : Except PyExc (Option JsonVal) × List LogEntry :=
  c.json_request join transport effLevel "POST" path data kwargs

/-! ## PDFClient (src/joker/interfaces/printable.py)

The document-generation client. Its transport is `requests.post`,
modelled as a function from (url, payload-value, json-headers flag) to
either a transport error or a response; errors from the transport
propagate through the `Except` monad exactly as Python exceptions
would. -/

/-- An exception raised by the underlying HTTP transport
(e.g. `requests.exceptions.ConnectionError`). -/
structure TransportError where
  message : String
deriving Repr, DecidableEq

/-- A `requests.Response` as observed by `PDFClient`: the raw body
bytes and the final (post-redirect) URL. -/
structure PDFResponse where
  content : List Nat
  url : String
deriving Repr, DecidableEq

/-- `PDFClient` derives from `_BaseHTTPClient` adding no state. -/
structure PDFClient where
  base_url : String
deriving Repr, DecidableEq

/-- `PDFClient._generate`: joins `tpl_path` against the base URL, posts
the JSON-serialized `data` with a JSON content-type header, logs the
initial and redirected URLs at info level, and returns the raw response
bytes together with the final URL. A transport error propagates
unmodified. -/
def PDFClient.generate_full (join : String → String → String)
    (post : String → JsonVal → Except TransportError PDFResponse)
    (c : PDFClient) (tpl_path : String) (data : JsonVal) :
    Except TransportError (List Nat × String) × List LogEntry :=
  let url := join c.base_url tpl_path
  match post url data with
  | .error e => (.error e, [⟨logINFO, .info ("initial url: " ++ url)⟩])
  | .ok resp =>
    (.ok (resp.content, resp.url),
      [⟨logINFO, .info ("initial url: " ++ url)⟩,
       ⟨logINFO, .info "redirected url:"⟩])

/-- `PDFClient.generate`: `self._generate(tpl_path, data)[0]` — the raw
body bytes only. -/
def PDFClient.generate (join : String → String → String)
    (post : String → JsonVal → Except TransportError PDFResponse)
    (c : PDFClient) (tpl_path : String) (data : JsonVal) :
    Except TransportError (List Nat) × List LogEntry :=
  match c.generate_full join post tpl_path data with
  | (.error e, logs) => (.error e, logs)
  | (.ok r, logs) => (.ok r.1, logs)

/-! ## Deprecated wrapper HTTPClientInterface
(src/joker/interfaces/http.py) -/

/-- `HTTPClientInterface`: holds a mapping from service name to base
URL (`self._upstream_config`), modelled as an association list with
unique keys and first-match lookup. -/
structure HTTPClientInterface where
  upstream_config : List (String × String)
deriving Repr, DecidableEq

/-- `self._upstream_config[service_name]`: `none` models a `KeyError`. -/
def HTTPClientInterface.config_get (i : HTTPClientInterface)
    (service_name : String) : Option String :=
  (i.upstream_config.find? (fun p => p.1 == service_name)).map Prod.snd

/-- `HTTPClientInterface.__getitem__`: constructs a client for the
named service's base URL. -/
def HTTPClientInterface.getitem (i : HTTPClientInterface)
    (service_name : String) : Option HTTPClient :=
  (i.config_get service_name).map HTTPClient.mk

/-- `HTTPClientInterface.get_service_url`: looks up the service's base
URL; `if not path:` (path `None` or empty) returns it unchanged,
otherwise returns `urljoin(base_url, path)` with the stdlib join passed
explicitly as `join`. -/
def HTTPClientInterface.get_service_url (join : String → String → String)
    (i : HTTPClientInterface) (service_name : String)
    (path : Option String) : Option String :=
  match i.config_get service_name with
  | none => none
  | some base_url =>
    if (match path with | none => true | some s => s.isEmpty) then
      some base_url
    else
      some (join base_url (path.getD ""))

/-! ## Prefix-check utilities

`check_inclusive_prefixes` and `check_exclusive_prefixes` live in the
missing `joker/interfaces/utils.py`; only their test
(src/tests/test_utils.py) is in the sources. Strings are compared by
their character lists. -/

/-- Modelled from the spec: `check_inclusive_prefixes(value, prefixes)`
(in the missing `joker/interfaces/utils.py`) returns true iff `value`
starts with at least one entry in `prefixes`; false for an empty
prefix set. -/
def check_inclusive_prefixes (value : String)
    (prefixes : List String) : Bool :=
  prefixes.any (fun p => p.data.isPrefixOf value.data)

/-- Modelled from the spec: `check_exclusive_prefixes(value, prefixes)`
(in the missing `joker/interfaces/utils.py`) returns true iff `value`
starts with none of the entries in `prefixes`; true for an empty
prefix set. -/
def check_exclusive_prefixes (value : String)
    (prefixes : List String) : Bool :=
  !prefixes.any (fun p => p.data.isPrefixOf value.data)

/-! ## State-threading wrappers

Python methods receive `self`; none of the method bodies in the sources
assigns any attribute, so each wrapper returns the `self` object the
method body leaves behind — read off the code, which contains no
mutation — alongside the method's result. These make the base-URL
immutability claim statable. -/

/-- `get_url` with `self` threaded through. -/
def HTTPClient.get_url_st (join : String → String → String)
    (c : HTTPClient) (path : String) : String × HTTPClient :=
  (c.get_url join path, c)

/-- `json_request` with `self` threaded through. -/
def HTTPClient.json_request_st (join : String → String → String)
    (transport : RequestRecord → Response) (effLevel : Nat)
    (c : HTTPClient) (method path : String) (data : Option JsonVal)
    (kwargs : Kwargs) :
    (Except PyExc (Option JsonVal) × List LogEntry) × HTTPClient :=
  (c.json_request join transport effLevel method path data kwargs, c)

/-- `json_get` with `self` threaded through. -/
def HTTPClient.json_get_st (join : String → String → String)
    (transport : RequestRecord → Response) (effLevel : Nat)
    (c : HTTPClient) (path : String) (dataArg : Option JsonVal)
    (kwargs : Kwargs) :
    (Except PyExc (Option JsonVal) × List LogEntry) × HTTPClient :=
  (c.json_get join transport effLevel path dataArg kwargs, c)

/-- `json_post` with `self` threaded through. -/
def HTTPClient.json_post_st (join : String → String → String)
    (transport : RequestRecord → Response) (effLevel : Nat)
    (c : HTTPClient) (path : String) (data : Option JsonVal)
    (kwargs : Kwargs) :
    (Except PyExc (Option JsonVal) × List LogEntry) × HTTPClient :=
  (c.json_post join transport effLevel path data kwargs, c)

/-- `PDFClient.generate` with `self` threaded through. -/
def PDFClient.generate_st (join : String → String → String)
    (post : String → JsonVal → Except TransportError PDFResponse)
    (c : PDFClient) (tpl_path : String) (data : JsonVal) :
    (Except TransportError (List Nat) × List LogEntry) × PDFClient :=
  (c.generate join post tpl_path data, c)

/-! ## Theorems -/

/-- C7: for every string `s` and list of prefixes `P`,
`check_inclusive_prefixes s P` is true iff some `p ∈ P` is a prefix of
`s` (hence false when `P` is empty), and `check_exclusive_prefixes s P`
is true iff no `p ∈ P` is a prefix of `s` (hence true when `P` is
empty). -/
theorem check_prefixes_spec (s : String) (P : List String) :
    (check_inclusive_prefixes s P = true ↔ ∃ p ∈ P, p.data <+: s.data)
    ∧ (check_exclusive_prefixes s P = true ↔ ∀ p ∈ P, ¬ p.data <+: s.data)
    ∧ check_inclusive_prefixes s [] = false
    ∧ check_exclusive_prefixes s [] = true := by
  refine ⟨?_, ?_, rfl, rfl⟩
  · simp [check_inclusive_prefixes, List.any_eq_true, List.isPrefixOf_iff_prefix]
  · simp [check_exclusive_prefixes, List.any_eq_true, List.isPrefixOf_iff_prefix]

/-- The assertions of `test_multicheck` (src/tests/test_utils.py). -/
theorem test_multicheck :
    check_inclusive_prefixes "hello-world" ["good", "hello"] = true
    ∧ check_inclusive_prefixes "hello-world" ["bad", "ello"] = false
    ∧ check_inclusive_prefixes "hello-world" [] = false
    ∧ check_exclusive_prefixes "hello-world" ["world", "ello"] = true
    ∧ check_exclusive_prefixes "hello-world" [] = true
    ∧ check_exclusive_prefixes "hello-world" ["hello", "ello"] = false := by
  decide

/-- C5: a call to `json_request` without a caller-supplied timeout
issues the request with timeout 30; a caller-supplied timeout is used
instead. The last conjunct shows `json_request` consults the transport
only at the request built by `build_request`, so the built record is
the request actually issued. -/
theorem json_request_timeout_default (join : String → String → String)
    (transport : RequestRecord → Response) (effLevel : Nat)
    (c : HTTPClient) (method path : String) (data : Option JsonVal)
    (t : Nat) (kwargs : Kwargs) :
    (c.build_request join method path data ⟨none⟩).timeout = 30
    ∧ (c.build_request join method path data ⟨some t⟩).timeout = t
    ∧ c.json_request join transport effLevel method path data kwargs
      = c.json_request join
          (fun _ => transport (c.build_request join method path data kwargs))
          effLevel method path data kwargs := by
  exact ⟨rfl, rfl, rfl⟩

/-- C6: `json_get` raises `AssertionError` when a body is supplied,
before any request is issued (the result does not depend on the
transport); without a body it delegates to `json_request` with method
`GET` and no body. -/
theorem json_get_forbids_body (join : String → String → String)
    (transport transport' : RequestRecord → Response) (effLevel : Nat)
    (c : HTTPClient) (path : String) (d : JsonVal) (kwargs : Kwargs) :
    (c.json_get join transport effLevel path (some d) kwargs
        = ((.error .assertionError : Except PyExc (Option JsonVal)), [])
      ∧ c.json_get join transport effLevel path (some d) kwargs
        = c.json_get join transport' effLevel path (some d) kwargs)
    ∧ c.json_get join transport effLevel path none kwargs
      = c.json_request join transport effLevel "GET" path none kwargs := by
  exact ⟨⟨rfl, rfl⟩, rfl⟩

/-- C9: every operation of the JSON HTTP client and the
document-generation client returns `self` unchanged; in particular the
stored base URL is unchanged. -/
theorem base_url_immutable (join : String → String → String)
    (transport : RequestRecord → Response)
    (post : String → JsonVal → Except TransportError PDFResponse)
    (effLevel : Nat) (c : HTTPClient) (pc : PDFClient)
    (method path tpl_path : String) (data dataArg : Option JsonVal)
    (jd : JsonVal) (kwargs : Kwargs) :
    (c.get_url_st join path).2 = c
    ∧ (c.json_request_st join transport effLevel method path data kwargs).2 = c
    ∧ (c.json_get_st join transport effLevel path dataArg kwargs).2 = c
    ∧ (c.json_post_st join transport effLevel path data kwargs).2 = c
    ∧ (pc.generate_st join post tpl_path jd).2 = pc
    ∧ ((c.json_request_st join transport effLevel method path data kwargs).2).base_url
      = c.base_url
    ∧ ((pc.generate_st join post tpl_path jd).2).base_url = pc.base_url := by
  exact ⟨rfl, rfl, rfl, rfl, rfl, rfl, rfl⟩

/-- C10: for a registered service name, `get_service_url` with no path
or an empty path returns the configured base URL unchanged — for every
join function, so no URL join is performed — and joins only when the
path is non-empty. -/
theorem get_service_url_empty_path (join join' : String → String → String)
    (i : HTTPClientInterface) (service_name base_url : String)
    (h : i.config_get service_name = some base_url) :
    i.get_service_url join service_name none = some base_url
    ∧ i.get_service_url join service_name (some "") = some base_url
    ∧ i.get_service_url join service_name none
      = i.get_service_url join' service_name none
    ∧ ∀ p : String, p.isEmpty = false →
        i.get_service_url join service_name (some p)
          = some (join base_url p) := by
  have hemp : ("" : String).isEmpty = true := rfl
  refine ⟨?_, ?_, ?_, fun p hp => ?_⟩ <;>
    simp [HTTPClientInterface.get_service_url, h, hemp, *]

/-- Witness for `get_service_url_empty_path` at a concrete
configuration. -/
theorem get_service_url_empty_path_witness :
    HTTPClientInterface.config_get ⟨[("svc", "http://h/")]⟩ "svc"
      = some "http://h/"
    ∧ HTTPClientInterface.get_service_url (fun b p => b ++ p)
        ⟨[("svc", "http://h/")]⟩ "svc" none = some "http://h/" :=
  ⟨rfl,
   (get_service_url_empty_path (fun b p => b ++ p) (fun b _ => b)
      ⟨[("svc", "http://h/")]⟩ "svc" "http://h/" rfl).1⟩

/-- C8: the document-generation client swallows no errors and validates
nothing: a transport error is returned to the caller unmodified by both
`generate` and `_generate`, and on success `generate` returns the raw
response body bytes while `_generate` also returns the final
(post-redirect) URL. -/
theorem pdf_generate_passthrough (join : String → String → String)
    (post : String → JsonVal → Except TransportError PDFResponse)
    (c : PDFClient) (tpl_path : String) (data : JsonVal) :
    (∀ e, post (join c.base_url tpl_path) data = .error e →
        (c.generate join post tpl_path data).1 = .error e
        ∧ (c.generate_full join post tpl_path data).1 = .error e)
    ∧ (∀ r, post (join c.base_url tpl_path) data = .ok r →
        (c.generate join post tpl_path data).1 = .ok r.content
        ∧ (c.generate_full join post tpl_path data).1
          = .ok (r.content, r.url)) := by
  constructor
  · intro e he
    constructor <;>
      simp [PDFClient.generate, PDFClient.generate_full, he]
  · intro r hr
    constructor <;>
      simp [PDFClient.generate, PDFClient.generate_full, hr]

/-- Witness for `pdf_generate_passthrough`: a transport that always
fails propagates its error out of `generate`. -/
theorem pdf_generate_passthrough_witness :
    (fun (_ : String) (_ : JsonVal) =>
        (.error ⟨"boom"⟩ : Except TransportError PDFResponse))
      ((fun b p => b ++ p) (PDFClient.base_url ⟨"http://h/"⟩) "tpl") .null
      = .error ⟨"boom"⟩
    ∧ (PDFClient.generate (fun b p => b ++ p)
        (fun _ _ => .error ⟨"boom"⟩) ⟨"http://h/"⟩ "tpl" .null).1
      = .error ⟨"boom"⟩ :=
  ⟨rfl,
   ((pdf_generate_passthrough (fun b p => b ++ p)
      (fun _ _ => .error ⟨"boom"⟩) ⟨"http://h/"⟩ "tpl" .null).1
      ⟨"boom"⟩ rfl).1⟩

/-- C3: a request whose response carries a non-200 status returns
nothing (`None`) from `json_request`, and no exception is raised (the
result is `Except.ok`). -/
theorem json_request_non200_returns_none
    (join : String → String → String)
    (transport : RequestRecord → Response) (effLevel : Nat)
    (c : HTTPClient) (method path : String) (data : Option JsonVal)
    (kwargs : Kwargs)
    (h : (transport (c.build_request join method path data kwargs)).status_code
      ≠ 200) :
    (c.json_request join transport effLevel method path data kwargs).1
      = .ok none := by
  unfold HTTPClient.json_request HTTPClient.load_json
  simp [h]

/-- Witness for `json_request_non200_returns_none` at a concrete
HTTP 500 response. -/
theorem json_request_non200_returns_none_witness :
    ((fun (_ : RequestRecord) => (⟨500, "http://h/a", "oops", none⟩ : Response))
        (HTTPClient.build_request (fun b p => b ++ p) ⟨"http://h/"⟩ "GET" "a"
          none ⟨none⟩)).status_code ≠ 200
    ∧ (HTTPClient.json_request (fun b p => b ++ p)
        (fun _ => ⟨500, "http://h/a", "oops", none⟩) 0 ⟨"http://h/"⟩
        "GET" "a" none ⟨none⟩).1 = .ok none :=
  ⟨by decide,
   json_request_non200_returns_none (fun b p => b ++ p)
     (fun _ => ⟨500, "http://h/a", "oops", none⟩) 0 ⟨"http://h/"⟩
     "GET" "a" none ⟨none⟩ (by decide)⟩

/-- C4: on a 200 response whose body decodes to a JSON mapping,
`json_request` returns the decoded mapping when the `code` field is
absent or falsy, and logs a non-zero-code error and returns nothing
when the `code` field is truthy. -/
theorem json_request_envelope (join : String → String → String)
    (transport : RequestRecord → Response) (effLevel : Nat)
    (c : HTTPClient) (method path : String) (data : Option JsonVal)
    (kwargs : Kwargs) (kvs : List (String × JsonVal))
    (h200 : (transport (c.build_request join method path data kwargs)).status_code
      = 200)
    (hobj : (transport (c.build_request join method path data kwargs)).bodyJson
      = some (.obj kvs)) :
    if pyTruthy (dictGet kvs "code") then
      (c.json_request join transport effLevel method path data kwargs).1
        = .ok none
      ∧ (⟨logERROR, .nonZeroCode (dictGet kvs "code")
            (transport (c.build_request join method path data kwargs)).url⟩
          : LogEntry)
        ∈ (c.json_request join transport effLevel method path data kwargs).2
    else
      (c.json_request join transport effLevel method path data kwargs).1
        = .ok (some (.obj kvs)) := by
  unfold HTTPClient.json_request HTTPClient.load_json
  by_cases hc : pyTruthy (dictGet kvs "code") = true <;>
    simp [h200, hobj, hc, JsonVal.getAttrGet]

/-- Witness for `json_request_envelope`: a 200 response with body
`{"code": 0, "value": 1}` yields the decoded mapping. -/
theorem json_request_envelope_witness :
    ((fun (_ : RequestRecord) =>
        (⟨200, "http://h/a", "",
          some (.obj [("code", .num 0), ("value", .num 1)])⟩ : Response))
      (HTTPClient.build_request (fun b p => b ++ p) ⟨"http://h/"⟩ "GET" "a"
        none ⟨none⟩)).status_code = 200
    ∧ (HTTPClient.json_request (fun b p => b ++ p)
        (fun _ => ⟨200, "http://h/a", "",
          some (.obj [("code", .num 0), ("value", .num 1)])⟩)
        0 ⟨"http://h/"⟩ "GET" "a" none ⟨none⟩).1
      = .ok (some (.obj [("code", .num 0), ("value", .num 1)])) :=
  ⟨rfl,
   json_request_envelope (fun b p => b ++ p)
     (fun _ => ⟨200, "http://h/a", "",
       some (.obj [("code", .num 0), ("value", .num 1)])⟩)
     0 ⟨"http://h/"⟩ "GET" "a" none ⟨none⟩
     [("code", .num 0), ("value", .num 1)] rfl rfl⟩

/-- C1 (failing input): on a 200 response whose body is the JSON list
`[1, 2, 3]`, `_load_json` logs the type-mismatch error but then calls
`data.get('code')` on the list, raising `AttributeError` — the
exception escapes `json_request` instead of the call continuing. -/
theorem json_request_list_raises :
    (HTTPClient.json_request (fun b p => b ++ p)
        (fun _ => ⟨200, "http://h/a", "[1, 2, 3]",
          some (.arr [.num 1, .num 2, .num 3])⟩)
        0 ⟨"http://h/"⟩ "GET" "a" none ⟨none⟩).1
      = .error (.attributeError "list" "get")
    ∧ (HTTPClient.json_request (fun b p => b ++ p)
        (fun _ => ⟨200, "http://h/a", "[1, 2, 3]",
          some (.arr [.num 1, .num 2, .num 3])⟩)
        0 ⟨"http://h/"⟩ "GET" "a" none ⟨none⟩).2
      = [⟨logERROR, .wrongType "list" "http://h/a"⟩] := by
  exact ⟨rfl, rfl⟩

/-- C2 (counterexample): on a concrete HTTP 500 response with every log
level enabled, the curl-equivalent is logged exactly once, at
`logging.DEBUG` — the failure path calls `log_request_as_curl` with its
default level — and no curl-equivalent record carries `logging.ERROR`. -/
theorem json_request_non200_curl_level_cex :
    ((HTTPClient.json_request (fun b p => b ++ p)
        (fun _ => ⟨500, "http://h/a", "oops", none⟩)
        0 ⟨"http://h/"⟩ "GET" "a" none ⟨none⟩).2.filter
      (fun e => e.msg.isCurl)).map LogEntry.level = [logDEBUG]
    ∧ (HTTPClient.json_request (fun b p => b ++ p)
        (fun _ => ⟨500, "http://h/a", "oops", none⟩)
        0 ⟨"http://h/"⟩ "GET" "a" none ⟨none⟩).2.any
      (fun e => e.level == logERROR && e.msg.isCurl) = false := by
  exact ⟨rfl, rfl⟩

/-- C2 (amended): on a non-200 response, when debug logging is enabled
the curl-equivalent reproduction of the request is logged — at
`logging.DEBUG` level, the default of `log_request_as_curl`. -/
theorem json_request_non200_curl_debug (join : String → String → String)
    (transport : RequestRecord → Response) (effLevel : Nat)
    (c : HTTPClient) (method path : String) (data : Option JsonVal)
    (kwargs : Kwargs)
    (h : (transport (c.build_request join method path data kwargs)).status_code
      ≠ 200)
    (hen : effLevel ≤ logDEBUG) :
    (⟨logDEBUG, .curl (dump_json_request_to_curl
        (c.build_request join method path data kwargs).method
        (c.build_request join method path data kwargs).url data)⟩ : LogEntry)
      ∈ (c.json_request join transport effLevel method path data kwargs).2 := by
  unfold HTTPClient.json_request HTTPClient.load_json
  simp [h, HTTPClient.log_request_as_curl, isEnabledFor, hen,
    HTTPClient.log_resp_content]

/-- Witness for `json_request_non200_curl_debug` at a concrete HTTP 500
response with debug logging enabled. -/
theorem json_request_non200_curl_debug_witness :
    (((fun (_ : RequestRecord) =>
          (⟨500, "http://h/a", "oops", none⟩ : Response))
        (HTTPClient.build_request (fun b p => b ++ p) ⟨"http://h/"⟩ "GET" "a"
          none ⟨none⟩)).status_code ≠ 200 ∧ (0 : Nat) ≤ logDEBUG)
    ∧ (⟨logDEBUG, .curl (dump_json_request_to_curl
        (HTTPClient.build_request (fun b p => b ++ p) ⟨"http://h/"⟩ "GET" "a"
          none ⟨none⟩).method
        (HTTPClient.build_request (fun b p => b ++ p) ⟨"http://h/"⟩ "GET" "a"
          none ⟨none⟩).url none)⟩ : LogEntry)
      ∈ (HTTPClient.json_request (fun b p => b ++ p)
          (fun _ => ⟨500, "http://h/a", "oops", none⟩)
          0 ⟨"http://h/"⟩ "GET" "a" none ⟨none⟩).2 :=
  ⟨⟨by decide, by decide⟩,
   json_request_non200_curl_debug (fun b p => b ++ p)
     (fun _ => ⟨500, "http://h/a", "oops", none⟩)
     0 ⟨"http://h/"⟩ "GET" "a" none ⟨none⟩ (by decide) (by decide)⟩
